import Mathlib

/-!
Verification development for pgindexrebuild (src/pgindexrebuild.py).

Shallow embedding: the pure string transforms are Lean functions on
`String`; the executor loop in `main` is embedded as a pure function
producing the trace of cursor interactions (read-only size and existence
queries, and executed DDL statements) together with the log lines it
emits and the savings delta it accumulates.  Database reads
(`index_size`, `does_index_exist`) are supplied as explicit inputs.
Machine integers are `Int` (Python integers are unbounded, so no
wrap-around modelling is needed).  `make_indexdef_concurrent` raises
`ValueError` on unrecognized DDL; that is embedded as `Except String`.
-/

namespace PgIndexRebuild

/-- Python `pre.isPrefixOf s` on character lists: `s.startswith(pre)`. -/
def pyStartswith (s pre : String) : Bool :=
  pre.data.isPrefixOf s.data

/-- Python `str.replace(old, new, 1)` on character lists: replace the first
occurrence of `old` (left to right); if `old` does not occur, the string is
unchanged. -/
def listReplaceFirst (s old new : List Char) : List Char :=
  match s with
  | [] => []
  | c :: rest =>
    if old.isPrefixOf s then new ++ s.drop old.length
    else c :: listReplaceFirst rest old new

/-- Python `s.replace(old, new, 1)` on `String`. -/
def strReplaceFirst (s old new : String) : String :=
  ⟨listReplaceFirst s.data old.data new.data⟩

/-- Python `pat in s`: substring containment test. -/
def listContainsSub (s pat : List Char) : Bool :=
  match s with
  | [] => pat.isEmpty
  | _ :: rest => pat.isPrefixOf s || listContainsSub rest pat

/-- Python `s.upper()` (the DDL handled here is ASCII; `Char.toUpper`
uppercases exactly the ASCII lowercase letters, like CPython on ASCII). -/
def pyUpper (s : String) : String :=
  ⟨s.data.map Char.toUpper⟩

/-- `make_indexdef_concurrent` from src/pgindexrebuild.py lines 19-28,
embedded with the `raise ValueError(...)` branch as `Except.error`.
Note the source really does pass the misspelled string
`CREATE UNQUE INDEX ` to `replace` in the unique branch. -/
def make_indexdef_concurrent (indexdef : String) : Except String String :=
  if pyStartswith indexdef "CREATE INDEX " then
    .ok (strReplaceFirst indexdef "CREATE INDEX " "CREATE INDEX CONCURRENTLY ")
  else if pyStartswith indexdef "CREATE UNIQUE INDEX " then
    .ok (strReplaceFirst indexdef "CREATE UNQUE INDEX " "CREATE UNQUE INDEX CONCURRENTLY ")
  else
    .error ("Unknown index creation: " ++ indexdef)

/-- Round `n / d` (with `d > 0`) to the nearest integer, ties to even:
the rounding CPython applies when formatting a float with `.1f`.  For the
inputs `size_pretty` produces (`n = 10 * b`, `d` a power of two,
`abs b < 2 ^ 53`) the Python float `b / d` is exact, so correctly rounded
decimal formatting of the float coincides with this integer rounding. -/
def roundHalfEven (n d : Int) : Int :=
  let q := Int.fdiv n d
  let r := Int.fmod n d
  if 2 * r < d then q
  else if 2 * r > d then q + 1
  else if q % 2 = 0 then q else q + 1

/-- Python `"{:.1f}".format(b / d)`: the quotient rendered with exactly one
decimal digit. -/
def fmt1 (b d : Int) : String :=
  let t := roundHalfEven (10 * b) d
  let sign := if t < 0 then "-" else ""
  let a := t.natAbs
  sign ++ toString (a / 10) ++ "." ++ toString (a % 10)

/-- `size_pretty` from src/pgindexrebuild.py lines 44-56.  The branch
conditions are on `abs(b)` in the source. -/
def size_pretty (b : Int) : String :=
  if 1024 * 1024 * 1024 ≤ b.natAbs then
    fmt1 b (1024 * 1024 * 1024) ++ "GiB"
  else if 1024 * 1024 ≤ b.natAbs then
    fmt1 b (1024 * 1024) ++ "MiB"
  else if 1024 ≤ b.natAbs then
    fmt1 b 1024 ++ "KiB"
  else
    toString b ++ "B"

/-- One row of the bloat query result set (src/pgindexrebuild.py lines
61-108), restricted to the columns the Python code reads afterwards.
`bs` is the value `current_setting(block_size)` had when the query ran:
the query folds it into `wastedibytes`, which we therefore carry as given
data; the row construction code never reads `bs` itself.  `indexdef` is
`Option String` because the LEFT JOIN can produce SQL NULL (Python
`None`). -/
structure Row where
  schemaname : String
  tablename : String
  iname : String
  ipages : Int
  wastedibytes : Int
  indisprimary : Bool
  indexdef : Option String
  bs : Int
deriving DecidableEq, Repr

/-- One entry of the dict built per retained row in `indexsizes`
(src/pgindexrebuild.py lines 117-128).  `ddef` is the dict key `def`
(a Lean keyword); `objtype` is the constant `type` field. -/
structure Candidate where
  schemaname : String
  iname : String
  name : String
  size : Int
  objtype : String
  table : String
  primary : Bool
  ddef : String
  wasted : Int
  indexdef : String
deriving DecidableEq, Repr

/-- The dict value built from one row (src/pgindexrebuild.py lines
117-128): `idef` is the `indexdef` of the row, `conc` the result of
`make_indexdef_concurrent` on it. -/
def mkCandidate (row : Row) (idef conc : String) : Candidate :=
  { schemaname := row.schemaname
    iname := row.iname
    name := row.iname
    size := row.ipages * 8192
    objtype := "index"
    table := row.tablename
    primary := row.indisprimary
    ddef := idef
    wasted := row.wastedibytes
    indexdef := conc }

/-- Insert into the dict keyed by `schemaname.iname`: overwriting an
existing key keeps its position, a new key is appended.  (CPython 2 dicts
iterate in hash order; this insertion-order determinization is the
standard one, and the theorems below that depend on order either hold for
any order or exhibit inputs where the conclusion is order-independent.) -/
def dedupInsert (m : List (String × Candidate)) (k : String) (v : Candidate) :
    List (String × Candidate) :=
  if m.any (fun p => p.1 = k) then
    m.map (fun p => if p.1 = k then (k, v) else p)
  else
    m ++ [(k, v)]

/-- The row loop of `indexsizes` (src/pgindexrebuild.py lines 114-128):
rows whose `indexdef` is falsy (NULL or empty) are skipped; otherwise the
dict entry is built, and a `ValueError` from `make_indexdef_concurrent`
propagates. -/
def indexsizesLoop : List Row → List (String × Candidate) →
    Except String (List (String × Candidate))
  | [], m => .ok m
  | r :: rs, m =>
    match r.indexdef with
    | none => indexsizesLoop rs m
    | some idef =>
      if idef = "" then indexsizesLoop rs m
      else
        match make_indexdef_concurrent idef with
        | .error e => .error e
        | .ok conc =>
          indexsizesLoop rs
            (dedupInsert m (r.schemaname ++ "." ++ r.iname) (mkCandidate r idef conc))

/-- The comparison `objs.sort(key=lambda t: t[wasted])` sorts by. -/
def wastedLE (a b : Candidate) : Prop :=
  a.wasted ≤ b.wasted

instance : DecidableRel wastedLE := fun a b => Int.decLe a.wasted b.wasted

instance : IsTotal Candidate wastedLE := ⟨fun a b => Int.le_total a.wasted b.wasted⟩

instance : IsTrans Candidate wastedLE := ⟨fun _ _ _ => Int.le_trans⟩

/-- The filter applied after the sort (src/pgindexrebuild.py line 134). -/
def publicPositive (o : Candidate) : Bool :=
  o.schemaname == "public" && 0 < o.wasted

/-- `indexsizes` from src/pgindexrebuild.py lines 59-136, with the query
result set as input: build the dict, take its values, sort ascending by
`wasted` (Python list.sort is stable, as is `insertionSort`), then keep
only public-schema rows with positive waste. -/
def indexsizes (rows : List Row) : Except String (List Candidate) :=
  match indexsizesLoop rows [] with
  | .error e => .error e
  | .ok m =>
    .ok (((m.map Prod.snd).insertionSort wastedLE).filter publicPositive)

/-- What the spec (section 3 of the design document) says the candidate
list is: the values of the deduplicated dict in mapping iteration order,
filtered, with no sort.  Stated only to compare with `indexsizes`. -/
def indexsizesSpecOrder (rows : List Row) : Except String (List Candidate) :=
  match indexsizesLoop rows [] with
  | .error e => .error e
  | .ok m => .ok ((m.map Prod.snd).filter publicPositive)

/-- One cursor interaction of the executor.  `relSize` is the read-only
SELECT issued by `index_size`, `idxExists` the read-only SELECT issued by
`does_index_exist`; `exec` is a DDL statement executed via
`cursor.execute` (rename, concurrent create, ANALYSE, constraint swap,
drop). -/
inductive Action where
  | relSize (iname : String)
  | idxExists (iname : String)
  | exec (sql : String)
deriving DecidableEq, Repr

/-- The DDL statements of a trace (the read-only SELECTs dropped). -/
def ddlOf (tr : List Action) : List String :=
  tr.filterMap fun a =>
    match a with
    | .exec s => some s
    | _ => none

/-- One log line of the executor, kept structural: each constructor holds
the data the source interpolates into the corresponding format string
(pretty-printed sizes are carried as the `size_pretty` output; the
percentage fields, which the source computes in floating point purely for
display, are not modelled).  -/
inductive LogLine where
  | skipZero (name : String) (size wasted : Int)
  | skipUnique (name sizeP : String) (size : Int) (wastedP : String) (wasted : Int)
  | reindexing (name sizeP : String) (size : Int) (wastedP : String) (wasted : Int)
  | oldExists (old : String)
  | saved (deltaP : String) (delta : Int)
deriving DecidableEq, Repr

/-- `"ALTER INDEX {t} RENAME TO {old};"` (src line 197). -/
def renameSQL (t old : String) : String :=
  "ALTER INDEX " ++ t ++ " RENAME TO " ++ old ++ ";"

/-- `"ANALYSE {t};"` (src line 199). -/
def analyseSQL (t : String) : String :=
  "ANALYSE " ++ t ++ ";"

/-- The combined constraint swap for primary keys (src line 202). -/
def pkSQL (table t : String) : String :=
  "ALTER TABLE " ++ table ++ " DROP CONSTRAINT " ++ t ++ "_old, ADD CONSTRAINT "
    ++ t ++ " PRIMARY KEY USING INDEX " ++ t ++ ";"

/-- `"DROP INDEX {old};"` (src line 204). -/
def dropSQL (old : String) : String :=
  "DROP INDEX " ++ old ++ ";"

/-- The body of the `for obj in objs` loop of `main`
(src/pgindexrebuild.py lines 176-209) for one candidate, as a pure
function of the candidate and of what the database would answer:
`oldExists` is what `does_index_exist` returns for `<name>_old`, and
`oldsize` / `newsize` are the two `index_size` answers.  The result is
the trace of cursor interactions, the log lines, and the amount added to
`total_savings` (an `Int`; the source accumulates into a float, exact for
these integer deltas). -/
def process_obj (dryRun : Bool) (obj : Candidate) (oldExists : Bool)
    (oldsize newsize : Int) : List Action × List LogLine × Int :=
  if obj.wasted = 0 then
    ([], [.skipZero obj.name obj.size obj.wasted], 0)
  else if listContainsSub (pyUpper obj.indexdef).data " UNIQUE ".data then
    ([], [.skipUnique obj.name (size_pretty obj.size) obj.size
            (size_pretty obj.wasted) obj.wasted], 0)
  else
    let lg := LogLine.reindexing obj.name (size_pretty obj.size) obj.size
      (size_pretty obj.wasted) obj.wasted
    if dryRun then
      ([.relSize obj.name], [lg], 0)
    else
      let old := obj.name ++ "_old"
      if oldExists then
        ([.relSize obj.name, .idxExists old], [lg, .oldExists old], 0)
      else
        let stmts := [renameSQL obj.name old, obj.indexdef, analyseSQL obj.name]
          ++ (if obj.primary then [pkSQL obj.table obj.name] else [])
          ++ [dropSQL old]
        let delta := newsize - oldsize
        ([.relSize obj.name, .idxExists old] ++ stmts.map Action.exec
           ++ [.relSize obj.name],
         [lg, .saved (size_pretty delta) delta],
         delta)

/-- The whole candidate loop: each list element pairs a candidate with
the database answers it would receive (`oldExists`, `oldsize`,
`newsize`).  Traces and logs concatenate; savings deltas add. -/
def main_loop (dryRun : Bool) :
    List (Candidate × Bool × Int × Int) → List Action × List LogLine × Int
  | [] => ([], [], 0)
  | (obj, ex, os, ns) :: rest =>
    let r := process_obj dryRun obj ex os ns
    let k := main_loop dryRun rest
    (r.1 ++ k.1, r.2.1 ++ k.2.1, r.2.2 + k.2.2)

/-! Concrete values used by the scenario theorems and witnesses. -/

/-- The scenario-1 query row: public schema, 640 pages (so size
640 * 8192 = 5242880), wasted 1048576, plain index on `t (c)`. -/
def rowFoo : Row :=
  { schemaname := "public"
    tablename := "t"
    iname := "idx_foo"
    ipages := 640
    wastedibytes := 1048576
    indisprimary := false
    indexdef := some "CREATE INDEX idx_foo ON t (c)"
    bs := 8192 }

/-- The candidate `indexsizes` builds from `rowFoo`. -/
def idxFoo : Candidate :=
  { schemaname := "public"
    iname := "idx_foo"
    name := "idx_foo"
    size := 5242880
    objtype := "index"
    table := "t"
    primary := false
    ddef := "CREATE INDEX idx_foo ON t (c)"
    wasted := 1048576
    indexdef := "CREATE INDEX CONCURRENTLY idx_foo ON t (c)" }

/-- A candidate whose stored creation statement carries the uniqueness
marker (as every unique index does, since the buggy unique branch of the
transform leaves the DDL unchanged), with a large waste figure. -/
def uIdx : Candidate :=
  { schemaname := "public"
    iname := "idx_u"
    name := "idx_u"
    size := 8192000
    objtype := "index"
    table := "t"
    primary := false
    ddef := "CREATE UNIQUE INDEX idx_u ON t (c)"
    wasted := 999999999
    indexdef := "CREATE UNIQUE INDEX idx_u ON t (c)" }

/-- A primary-key-backed candidate whose stored creation statement lacks
the uniqueness marker, so it reaches the live rebuild sequence. -/
def pkIdx : Candidate :=
  { schemaname := "public"
    iname := "t_pkey"
    name := "t_pkey"
    size := 5242880
    objtype := "index"
    table := "t"
    primary := true
    ddef := "CREATE INDEX t_pkey ON t (id)"
    wasted := 1048576
    indexdef := "CREATE INDEX CONCURRENTLY t_pkey ON t (id)" }

/-! Theorems for the claims. -/

/-- Claim C1 (code bug evidence): on DDL starting with
`CREATE UNIQUE INDEX ` the transform returns its input unchanged — the
source replaces the misspelled `CREATE UNQUE INDEX `, which never occurs
— while the plain `CREATE INDEX ` branch does insert CONCURRENTLY once
after the keyword, as the claim states for both branches. -/
theorem make_indexdef_concurrent_unique_typo :
    make_indexdef_concurrent "CREATE UNIQUE INDEX u ON t (c)" =
      Except.ok "CREATE UNIQUE INDEX u ON t (c)" ∧
    make_indexdef_concurrent "CREATE INDEX idx_foo ON t (c)" =
      Except.ok "CREATE INDEX CONCURRENTLY idx_foo ON t (c)" :=
  ⟨rfl, rfl⟩

/-- Claim C10: the `size` field of every candidate the estimator builds
is the page count of its row times the hard-coded 8192, and the
construction is invariant under changing the `bs` (block_size) value the
query ran with. -/
theorem candidate_size_blocksize_independent (row : Row) (idef conc : String) (bs2 : Int) :
    (mkCandidate row idef conc).size = row.ipages * 8192 ∧
    mkCandidate { row with bs := bs2 } idef conc = mkCandidate row idef conc :=
  ⟨rfl, rfl⟩

/-- Claim C3: with live mode and an already-existing `<name>_old` index,
processing a candidate issues no DDL statement at all, and the loop
composes so that the remaining candidates are still processed. -/
theorem executor_skip_on_old_exists :
    (∀ (obj : Candidate) (os ns : Int),
      ddlOf (process_obj false obj true os ns).1 = []) ∧
    (∀ (obj : Candidate) (os ns : Int) (rest : List (Candidate × Bool × Int × Int)),
      (main_loop false ((obj, true, os, ns) :: rest)).1 =
        (process_obj false obj true os ns).1 ++ (main_loop false rest).1) :=
  ⟨by
    intro obj os ns
    unfold process_obj
    split
    · rfl
    · split
      · rfl
      · rfl,
   fun _ _ _ _ => rfl⟩

/-- `out` ends in `"." ++ digit ++ suf`: a one-decimal rendering carrying
the unit suffix `suf`. -/
def oneDecimalSuffix (out suf : String) : Prop :=
  ∃ (pre : String) (d : Char), d.isDigit ∧ out = pre ++ "." ++ String.singleton d ++ suf

theorem natToStringDigit (n : Nat) (h : n < 10) :
    ∃ d : Char, d.isDigit ∧ toString n = String.singleton d := by
  interval_cases n <;> exact ⟨_, by decide, rfl⟩

theorem fmt1_oneDecimal (b dv : Int) (suf : String) :
    oneDecimalSuffix (fmt1 b dv ++ suf) suf := by
  obtain ⟨d, hd, hs⟩ :=
    natToStringDigit ((roundHalfEven (10 * b) dv).natAbs % 10) (Nat.mod_lt _ (by norm_num))
  refine ⟨(if roundHalfEven (10 * b) dv < 0 then "-" else "")
    ++ toString ((roundHalfEven (10 * b) dv).natAbs / 10), d, hd, ?_⟩
  simp only [fmt1, hs, String.append_assoc]

/-- Claim C8 (counterexample): the claim quantifies over every integer
and puts its thresholds on `b` itself, so it asserts that
`b = -1048576 < 1024` renders as the plain byte count `-1048576B`; the
source branches on `abs(b)` and renders `-1.0MiB`. -/
theorem size_pretty_negative_cex :
    (-1048576 : Int) < 1024 ∧
    size_pretty (-1048576) = "-1.0MiB" ∧
    size_pretty (-1048576) ≠ "-1048576B" := by
  refine ⟨by norm_num, rfl, ?_⟩
  decide

/-- Claim C8 (amended): the rendering thresholds are on the absolute
value of `b`: `abs b ≥ 2^30` renders one decimal with the GiB suffix,
`2^20 ≤ abs b < 2^30` with MiB, `2^10 ≤ abs b < 2^20` with KiB, and
`abs b < 2^10` as the plain integer byte count with a B suffix and no
decimal. -/
theorem size_pretty_abs_branches (b : Int) :
    (1024 * 1024 * 1024 ≤ b.natAbs → oneDecimalSuffix (size_pretty b) "GiB") ∧
    (1024 * 1024 ≤ b.natAbs ∧ b.natAbs < 1024 * 1024 * 1024 →
      oneDecimalSuffix (size_pretty b) "MiB") ∧
    (1024 ≤ b.natAbs ∧ b.natAbs < 1024 * 1024 →
      oneDecimalSuffix (size_pretty b) "KiB") ∧
    (b.natAbs < 1024 → size_pretty b = toString b ++ "B") := by
  refine ⟨fun h => ?_, fun h => ?_, fun h => ?_, fun h => ?_⟩
  · rw [size_pretty, if_pos h]
    exact fmt1_oneDecimal b _ _
  · rw [size_pretty, if_neg (by omega), if_pos h.1]
    exact fmt1_oneDecimal b _ _
  · rw [size_pretty, if_neg (by omega), if_neg (by omega), if_pos h.1]
    exact fmt1_oneDecimal b _ _
  · rw [size_pretty, if_neg (by omega), if_neg (by omega), if_neg (by omega)]

/-- Witness for the amended C8 at the counterexample input. -/
theorem size_pretty_abs_branches_witness :
    1024 * 1024 ≤ (-1048576 : Int).natAbs ∧ (-1048576 : Int).natAbs < 1024 * 1024 * 1024 ∧
    oneDecimalSuffix (size_pretty (-1048576)) "MiB" :=
  ⟨by norm_num, by norm_num,
    (size_pretty_abs_branches (-1048576)).2.1 ⟨by norm_num, by norm_num⟩⟩

/-- Claim C9: with the dry-run flag set, processing any candidate issues
zero DDL statements; any candidate that reaches the action point (not
skipped for zero waste or a uniqueness marker) logs exactly the
intended-action line; and for the scenario-2 candidate (size 5242880,
wasted 1048576) that line reports `5.0MiB` and `1.0MiB`. -/
theorem dry_run_no_ddl_and_log :
    (∀ (obj : Candidate) (ex : Bool) (os ns : Int),
      ddlOf (process_obj true obj ex os ns).1 = []) ∧
    (∀ (obj : Candidate) (ex : Bool) (os ns : Int),
      ¬ obj.wasted = 0 →
      listContainsSub (pyUpper obj.indexdef).data " UNIQUE ".data = false →
      (process_obj true obj ex os ns).2.1 =
        [LogLine.reindexing obj.name (size_pretty obj.size) obj.size
          (size_pretty obj.wasted) obj.wasted]) ∧
    (∀ (ex : Bool) (os ns : Int),
      (process_obj true idxFoo ex os ns).2.1 =
        [LogLine.reindexing "idx_foo" "5.0MiB" 5242880 "1.0MiB" 1048576]) :=
  ⟨by
    intro obj ex os ns
    unfold process_obj
    split
    · rfl
    · split
      · rfl
      · rfl,
   by
    intro obj ex os ns h0 h1
    unfold process_obj
    rw [if_neg h0, if_neg (by simp [h1])]
    rfl,
   fun _ _ _ => rfl⟩

/-- Witness for C9 on the scenario-2 candidate. -/
theorem dry_run_no_ddl_and_log_witness :
    ¬ idxFoo.wasted = 0 ∧
    listContainsSub (pyUpper idxFoo.indexdef).data " UNIQUE ".data = false ∧
    ddlOf (process_obj true idxFoo false 5242880 5242880).1 = [] ∧
    (process_obj true idxFoo false 5242880 5242880).2.1 =
      [LogLine.reindexing idxFoo.name (size_pretty idxFoo.size) idxFoo.size
        (size_pretty idxFoo.wasted) idxFoo.wasted] :=
  ⟨by decide, by decide,
   dry_run_no_ddl_and_log.1 idxFoo false 5242880 5242880,
   dry_run_no_ddl_and_log.2.1 idxFoo false 5242880 5242880 (by decide) (by decide)⟩

/-- Claim C5: whenever the uppercased stored creation statement contains
` UNIQUE `, processing the candidate touches the database not at all (so
in particular issues no DDL), emits exactly one log line, adds nothing to
the savings total — whatever the wasted figure and mode — and the loop
continues with the remaining candidates. -/
theorem executor_skip_unique (dryRun : Bool) (obj : Candidate) (ex : Bool) (os ns : Int)
    (h : listContainsSub (pyUpper obj.indexdef).data " UNIQUE ".data = true) :
    (process_obj dryRun obj ex os ns).1 = [] ∧
    (process_obj dryRun obj ex os ns).2.1.length = 1 ∧
    (process_obj dryRun obj ex os ns).2.2 = 0 ∧
    ∀ rest, (main_loop dryRun ((obj, ex, os, ns) :: rest)).1 = (main_loop dryRun rest).1 := by
  have hp : process_obj dryRun obj ex os ns =
      if obj.wasted = 0 then ([], [.skipZero obj.name obj.size obj.wasted], 0)
      else ([], [.skipUnique obj.name (size_pretty obj.size) obj.size
        (size_pretty obj.wasted) obj.wasted], 0) := by
    unfold process_obj
    split
    · rfl
    · rfl
  refine ⟨?_, ?_, ?_, ?_⟩
  · rw [hp]; split <;> rfl
  · rw [hp]; split <;> rfl
  · rw [hp]; split <;> rfl
  · intro rest
    show (process_obj dryRun obj ex os ns).1 ++ (main_loop dryRun rest).1 = _
    rw [hp]; split <;> rfl

/-- Witness for C5: a unique-marked candidate with a huge wasted figure,
in live mode. -/
theorem executor_skip_unique_witness :
    listContainsSub (pyUpper uIdx.indexdef).data " UNIQUE ".data = true ∧
    (process_obj false uIdx false 0 0).1 = [] ∧
    (process_obj false uIdx false 0 0).2.1.length = 1 ∧
    (process_obj false uIdx false 0 0).2.2 = 0 :=
  ⟨by decide,
   (executor_skip_unique false uIdx false 0 0 (by decide)).1,
   (executor_skip_unique false uIdx false 0 0 (by decide)).2.1,
   (executor_skip_unique false uIdx false 0 0 (by decide)).2.2.1⟩

/-- Claim C2: a live-mode candidate that is not skipped (non-zero waste,
no uniqueness marker, no leftover `<name>_old`) produces exactly the
trace: size query, existence check, rename to `<name>_old`, the stored
concurrent creation statement, `ANALYSE <name>;`, the combined
constraint-swap statement exactly when the candidate is primary, drop of
`<name>_old`, and a final size query; it logs the action and the saved
delta, and accumulates `newsize - oldsize`. -/
theorem executor_live_sequence (obj : Candidate) (os ns : Int)
    (h0 : ¬ obj.wasted = 0)
    (h1 : listContainsSub (pyUpper obj.indexdef).data " UNIQUE ".data = false) :
    process_obj false obj false os ns =
      ([Action.relSize obj.name,
        Action.idxExists (obj.name ++ "_old"),
        Action.exec (renameSQL obj.name (obj.name ++ "_old")),
        Action.exec obj.indexdef,
        Action.exec (analyseSQL obj.name)]
        ++ (if obj.primary then [Action.exec (pkSQL obj.table obj.name)] else [])
        ++ [Action.exec (dropSQL (obj.name ++ "_old")), Action.relSize obj.name],
       [LogLine.reindexing obj.name (size_pretty obj.size) obj.size
          (size_pretty obj.wasted) obj.wasted,
        LogLine.saved (size_pretty (ns - os)) (ns - os)],
       ns - os) := by
  unfold process_obj
  rw [if_neg h0, if_neg (by simp [h1])]
  cases hpr : obj.primary <;> simp [hpr]

/-- Witness for C2: the primary-key candidate in live mode, shrinking
from 5242880 to 4000000 bytes. -/
theorem executor_live_sequence_witness :
    ¬ pkIdx.wasted = 0 ∧
    listContainsSub (pyUpper pkIdx.indexdef).data " UNIQUE ".data = false ∧
    process_obj false pkIdx false 5242880 4000000 =
      ([Action.relSize "t_pkey",
        Action.idxExists "t_pkey_old",
        Action.exec "ALTER INDEX t_pkey RENAME TO t_pkey_old;",
        Action.exec "CREATE INDEX CONCURRENTLY t_pkey ON t (id)",
        Action.exec "ANALYSE t_pkey;",
        Action.exec ("ALTER TABLE t DROP CONSTRAINT t_pkey_old, ADD CONSTRAINT t_pkey "
          ++ "PRIMARY KEY USING INDEX t_pkey;"),
        Action.exec "DROP INDEX t_pkey_old;",
        Action.relSize "t_pkey"],
       [LogLine.reindexing "t_pkey" "5.0MiB" 5242880 "1.0MiB" 1048576,
        LogLine.saved "-1.2MiB" (-1242880)],
       -1242880) :=
  ⟨by decide, by decide, by
    have h := executor_live_sequence pkIdx 5242880 4000000 (by decide) (by decide)
    simpa using h⟩

/-- Claim C4: every candidate `indexsizes` returns is in the public
schema with strictly positive waste, so the defensive `wasted == 0` skip
in the executor can never fire for it. -/
theorem indexsizes_public_positive (rows : List Row) (res : List Candidate)
    (h : indexsizes rows = .ok res) :
    ∀ c ∈ res, c.schemaname = "public" ∧ 0 < c.wasted ∧ c.wasted ≠ 0 := by
  intro c hc
  unfold indexsizes at h
  cases hl : indexsizesLoop rows [] with
  | error e => rw [hl] at h; exact absurd h (by simp)
  | ok m =>
    rw [hl] at h
    have hres : res = ((m.map Prod.snd).insertionSort wastedLE).filter publicPositive :=
      (Except.ok.inj h).symm
    subst hres
    have hp := List.of_mem_filter hc
    have hsp : c.schemaname = "public" ∧ 0 < c.wasted := by
      simpa [publicPositive] using hp
    exact ⟨hsp.1, hsp.2, by omega⟩

/-- Witness for C4 on the scenario row. -/
theorem indexsizes_public_positive_witness :
    indexsizes [rowFoo] = Except.ok [idxFoo] ∧
    (idxFoo.schemaname = "public" ∧ 0 < idxFoo.wasted ∧ idxFoo.wasted ≠ 0) :=
  ⟨rfl,
   indexsizes_public_positive [rowFoo] [idxFoo] rfl idxFoo (List.mem_singleton_self _)⟩

/-- Query row with the larger waste figure, arriving first. -/
def rBig : Row :=
  { schemaname := "public"
    tablename := "t"
    iname := "idx_big"
    ipages := 10
    wastedibytes := 2000
    indisprimary := false
    indexdef := some "CREATE INDEX idx_big ON t (a)"
    bs := 8192 }

/-- Query row with the smaller waste figure, arriving second. -/
def rSmall : Row :=
  { schemaname := "public"
    tablename := "t"
    iname := "idx_small"
    ipages := 5
    wastedibytes := 1000
    indisprimary := false
    indexdef := some "CREATE INDEX idx_small ON t (b)"
    bs := 8192 }

/-- The candidate built from `rBig`. -/
def cBig : Candidate :=
  { schemaname := "public"
    iname := "idx_big"
    name := "idx_big"
    size := 81920
    objtype := "index"
    table := "t"
    primary := false
    ddef := "CREATE INDEX idx_big ON t (a)"
    wasted := 2000
    indexdef := "CREATE INDEX CONCURRENTLY idx_big ON t (a)" }

/-- The candidate built from `rSmall`. -/
def cSmall : Candidate :=
  { schemaname := "public"
    iname := "idx_small"
    name := "idx_small"
    size := 40960
    objtype := "index"
    table := "t"
    primary := false
    ddef := "CREATE INDEX idx_small ON t (b)"
    wasted := 1000
    indexdef := "CREATE INDEX CONCURRENTLY idx_small ON t (b)" }

/-- Claim C6 (counterexample): on two kept candidates arriving in
descending waste order, the list `indexsizes` returns is the ascending
sort, not the mapping iteration order of the deduplicated set that
`indexsizesSpecOrder` (the claim as stated) produces — the sort step
reorders data the filter keeps. -/
theorem indexsizes_order_cex :
    indexsizes [rBig, rSmall] = Except.ok [cSmall, cBig] ∧
    indexsizesSpecOrder [rBig, rSmall] = Except.ok [cBig, cSmall] ∧
    ([cSmall, cBig] : List Candidate) ≠ [cBig, cSmall] :=
  ⟨rfl, rfl, by decide⟩

/-- Claim C6 (amended): the candidate list the executor consumes is the
deduplicated values sorted ascending by wasted bytes and then filtered;
since the (stable) filter preserves relative order, the final list is
ascending by wasted bytes — the sort is effective, and only the relative
order of candidates with equal waste falls back to the mapping iteration
order. -/
theorem indexsizes_sorted_by_wasted (rows : List Row)
    (m : List (String × Candidate)) (res : List Candidate)
    (hm : indexsizesLoop rows [] = .ok m)
    (h : indexsizes rows = .ok res) :
    res = ((m.map Prod.snd).insertionSort wastedLE).filter publicPositive ∧
    List.Sorted wastedLE res := by
  unfold indexsizes at h
  rw [hm] at h
  have hres : res = ((m.map Prod.snd).insertionSort wastedLE).filter publicPositive :=
    (Except.ok.inj h).symm
  refine ⟨hres, ?_⟩
  rw [hres]
  exact (List.sorted_insertionSort wastedLE (m.map Prod.snd)).filter _

/-- Witness for the amended C6 on the two-row input. -/
theorem indexsizes_sorted_by_wasted_witness :
    ([cSmall, cBig] : List Candidate) =
      (([("public.idx_big", cBig), ("public.idx_small", cSmall)].map
        Prod.snd).insertionSort wastedLE).filter publicPositive ∧
    List.Sorted wastedLE [cSmall, cBig] :=
  indexsizes_sorted_by_wasted [rBig, rSmall]
    [("public.idx_big", cBig), ("public.idx_small", cSmall)] [cSmall, cBig] rfl rfl

/-- The error branch of the transform, from the two failed prefix
tests. -/
theorem make_indexdef_concurrent_err (s : String)
    (h1 : pyStartswith s "CREATE INDEX " = false)
    (h2 : pyStartswith s "CREATE UNIQUE INDEX " = false) :
    make_indexdef_concurrent s = .error ("Unknown index creation: " ++ s) := by
  unfold make_indexdef_concurrent
  rw [if_neg (by simp [h1]), if_neg (by simp [h2])]

/-- If some row of the result set carries a non-empty creation statement
on which the transform raises, the whole dict-building loop raises,
whatever the accumulator. -/
theorem indexsizesLoop_error_of_bad (row : Row) (s e : String)
    (hdef : row.indexdef = some s) (hne : s ≠ "")
    (herr : make_indexdef_concurrent s = .error e) :
    ∀ (rows : List Row), row ∈ rows → ∀ m res, indexsizesLoop rows m ≠ .ok res := by
  intro rows
  induction rows with
  | nil => intro hmem; cases hmem
  | cons r rs ih =>
    intro hmem m res hok
    unfold indexsizesLoop at hok
    rcases List.mem_cons.mp hmem with heq | hmem2
    · subst heq
      simp only [hdef, if_neg hne, herr] at hok
      exact Except.noConfusion hok
    · cases hd : r.indexdef with
      | none =>
        simp only [hd] at hok
        exact ih hmem2 m res hok
      | some idef =>
        simp only [hd] at hok
        by_cases hie : idef = ""
        · rw [if_pos hie] at hok
          exact ih hmem2 m res hok
        · rw [if_neg hie] at hok
          cases hmk : make_indexdef_concurrent idef with
          | error e2 =>
            simp only [hmk] at hok
            exact Except.noConfusion hok
          | ok conc =>
            simp only [hmk] at hok
            exact ih hmem2 _ res hok

/-- Claim C7: on any DDL string carrying neither recognized prefix the
transform raises the unrecognized-definition error instead of returning
a string, and a run whose result set contains such a (non-empty) DDL for
some row fails as a whole: `indexsizes` cannot return a candidate
list. -/
theorem make_indexdef_unrecognized (s : String) (rows : List Row) (row : Row)
    (h1 : pyStartswith s "CREATE INDEX " = false)
    (h2 : pyStartswith s "CREATE UNIQUE INDEX " = false) :
    make_indexdef_concurrent s = .error ("Unknown index creation: " ++ s) ∧
    (row ∈ rows → row.indexdef = some s → s ≠ "" →
      ∀ res, indexsizes rows ≠ .ok res) := by
  have herr := make_indexdef_concurrent_err s h1 h2
  refine ⟨herr, fun hmem hdef hne res hok => ?_⟩
  unfold indexsizes at hok
  cases hl : indexsizesLoop rows [] with
  | error e => rw [hl] at hok; exact absurd hok (by simp)
  | ok m =>
    exact indexsizesLoop_error_of_bad row s _ hdef hne herr rows hmem [] m hl

/-- A result-set row carrying unrecognizable creation DDL. -/
def rowBad : Row :=
  { schemaname := "public"
    tablename := "t"
    iname := "idx_bad"
    ipages := 1
    wastedibytes := 5
    indisprimary := false
    indexdef := some "REINDEX idx_bad"
    bs := 8192 }

/-- Witness for C7 on a `REINDEX` statement. -/
theorem make_indexdef_unrecognized_witness :
    pyStartswith "REINDEX idx_bad" "CREATE INDEX " = false ∧
    pyStartswith "REINDEX idx_bad" "CREATE UNIQUE INDEX " = false ∧
    make_indexdef_concurrent "REINDEX idx_bad" =
      .error ("Unknown index creation: " ++ "REINDEX idx_bad") ∧
    indexsizes [rowBad] ≠ Except.ok [] :=
  ⟨by decide, by decide,
   (make_indexdef_unrecognized "REINDEX idx_bad" [rowBad] rowBad (by decide) (by decide)).1,
   (make_indexdef_unrecognized "REINDEX idx_bad" [rowBad] rowBad (by decide) (by decide)).2
     (List.mem_singleton_self _) rfl (by decide) []⟩

end PgIndexRebuild
